import Mathlib

/-!
Verification of the "law of the wall" fitting notebook
(`law-of-the-wall.ipynb`).

The notebook is an exercise sheet: the model function `loglayer` is given
as a template whose body is the placeholder `# insert code here` followed
by `return u`, and the `curve_fit` call is left to the student (the
`scipy.optimize.curve_fit` import is never used in the shipped cells).
We therefore embed two layers:

* the shipped code as it stands (`loglayerShipped`, which evaluates the
  `return u` statement in an environment where `u` was never bound), and
* the intended model and fit, modelled from the specification, since the
  implementations are missing from the source.

All real arithmetic is over `ℝ`; NumPy broadcasting over an array of
heights is embedded as `List.map`.
-/

namespace LawOfTheWall

open Classical

/-! ## The shipped notebook code -/

/-- A Python runtime error raised while evaluating the shipped cell. -/
inductive PyError where
  | nameError (name : String)
  deriving DecidableEq, Repr

/-- The local environment of the shipped `loglayer` body: exactly the three
parameters `z`, `ustar`, `zo` are bound; nothing in the body assigns `u`. -/
def loglayerLocals (z ustar zo : ℝ) : List (String × ℝ) :=
  [("z", z), ("ustar", ustar), ("zo", zo)]

/-- Python variable lookup: a read of an unbound name raises `NameError`. -/
def lookupVar (env : List (String × ℝ)) (x : String) : Except PyError ℝ :=
  match env.find? (fun p => p.1 == x) with
  | some p => Except.ok p.2
  | none => Except.error (PyError.nameError x)

/-- The shipped `loglayer` function of the notebook: its body is the
comment `# insert code here` followed by `return u`, so a call evaluates
the name `u` in an environment that never bound it. -/
def loglayerShipped (z ustar zo : ℝ) : Except PyError ℝ :=
  lookupVar (loglayerLocals z ustar zo) "u"

/-- The observation heights hard-coded in the notebook (cm). -/
def df_z : List ℝ := [22, 55, 89, 123]

/-- The observed velocities hard-coded in the notebook (cm/s). -/
def df_u : List ℝ := [41.8, 50.4, 55.0, 58.4]

/-- The notebook's observation profile `df`, as `(z, u)` pairs. -/
def obsData : List (ℝ × ℝ) := df_z.zip df_u

/-! ## The intended model, modelled from the spec -/

/-- Modelled from the spec: the fixed von Kármán constant `kappa = 0.41`
(not a fit parameter). -/
def kappa : ℝ := 0.41

/-- Modelled from the spec: the body of `loglayer` is an exercise
placeholder in the source (`# insert code here`), so the model operation
is taken from the spec equation `u = (u_star / kappa) * ln(z / z_o)`. -/
noncomputable def loglayer (z ustar zo : ℝ) : ℝ :=
  (ustar / kappa) * Real.log (z / zo)

/-- Modelled from the spec: the model applied to a sequence of heights
returns the modeled velocity at each input height (NumPy broadcasting of
the template over an array argument `z`). -/
noncomputable def loglayerVec (zs : List ℝ) (ustar zo : ℝ) : List ℝ :=
  zs.map (fun z => loglayer z ustar zo)

/-- Modelled from the spec: evaluating the model at `z ≤ 0` or with
`z_o ≤ 0` is invalid ("fails (or yields a domain error / NaN)"); the
checked model returns `none` outside the domain of the logarithm. -/
noncomputable def loglayerChecked (z ustar zo : ℝ) : Option ℝ :=
  if 0 < z ∧ 0 < zo then some (loglayer z ustar zo) else none

/-! ## The fit operation, modelled from the spec

The notebook imports `scipy.optimize.curve_fit` but the fit call is left
as an exercise, so the `fit` operation is modelled from the spec.  The
spec's objective `Σ_i (u_i − model(z_i, u_star, z_o))²` is, under the
substitution `A = u_star / kappa`, `B = −A · ln z_o`, the linear
least-squares objective `Σ_i (u_i − (A · ln z_i + B))²`; the substitution
is a bijection from `(u_star ≠ 0, z_o > 0)` onto `(A ≠ 0, B)`, so the
model computes the exact minimizer in closed form. -/

/-- A reported fit failure, distinguishable by the caller. -/
inductive FitError where
  | domainError
  | convergenceError
  deriving DecidableEq, Repr

/-- Modelled from the spec: `FitResult { u_star, z_o, se_u_star, se_z_o,
n_observations }`. -/
structure FitResult where
  u_star : ℝ
  z_o : ℝ
  se_u_star : ℝ
  se_z_o : ℝ
  n_observations : ℕ

/-- Number of observations, as a real. -/
def obsN (obs : List (ℝ × ℝ)) : ℝ := obs.length

/-- Sum of the log-heights `Σ ln z_i`. -/
noncomputable def obsSx (obs : List (ℝ × ℝ)) : ℝ :=
  (obs.map (fun p => Real.log p.1)).sum

/-- Sum of the velocities `Σ u_i`. -/
def obsSy (obs : List (ℝ × ℝ)) : ℝ :=
  (obs.map (fun p => p.2)).sum

/-- Sum `Σ (ln z_i)²`. -/
noncomputable def obsSxx (obs : List (ℝ × ℝ)) : ℝ :=
  (obs.map (fun p => Real.log p.1 ^ 2)).sum

/-- Sum `Σ (ln z_i) · u_i`. -/
noncomputable def obsSxy (obs : List (ℝ × ℝ)) : ℝ :=
  (obs.map (fun p => Real.log p.1 * p.2)).sum

/-- Determinant `n · Σ x² − (Σ x)²` of the normal equations of the
least-squares problem in `(A, B)`. -/
noncomputable def obsD (obs : List (ℝ × ℝ)) : ℝ :=
  obsN obs * obsSxx obs - obsSx obs ^ 2

/-- Least-squares slope `A = (n Σ x u − Σ x Σ u) / D`. -/
noncomputable def obsA (obs : List (ℝ × ℝ)) : ℝ :=
  (obsN obs * obsSxy obs - obsSx obs * obsSy obs) / obsD obs

/-- Least-squares intercept `B = (Σ u − A Σ x) / n`. -/
noncomputable def obsB (obs : List (ℝ × ℝ)) : ℝ :=
  (obsSy obs - obsA obs * obsSx obs) / obsN obs

/-- Residual sum of squares at the minimizer. -/
noncomputable def obsSSR (obs : List (ℝ × ℝ)) : ℝ :=
  (obs.map (fun p =>
    (p.2 - (obsA obs * Real.log p.1 + obsB obs)) ^ 2)).sum

/-- Residual variance estimate `SSR / (n − 2)` for `n > 2`. -/
noncomputable def obsSigma2 (obs : List (ℝ × ℝ)) : ℝ :=
  if 2 < obs.length then obsSSR obs / (obsN obs - 2) else 0

/-- Variance of the slope, `σ² n / D`. -/
noncomputable def obsVarA (obs : List (ℝ × ℝ)) : ℝ :=
  obsSigma2 obs * obsN obs / obsD obs

/-- Variance of the intercept, `σ² Σ x² / D`. -/
noncomputable def obsVarB (obs : List (ℝ × ℝ)) : ℝ :=
  obsSigma2 obs * obsSxx obs / obsD obs

/-- Covariance of slope and intercept, `−σ² Σ x / D`. -/
noncomputable def obsCovAB (obs : List (ℝ × ℝ)) : ℝ :=
  -(obsSigma2 obs * obsSx obs / obsD obs)

/-- Modelled from the spec: `fit(observations, initial_guess)` minimizes
`Σ_i (u_i − model(z_i, u_star, z_o))²` and reports a domain error when the
initial guess has `z_o0 ≤ 0` or any observation has `z_i ≤ 0`, and a
convergence error when the minimizer does not exist or cannot be mapped
back to the parameters (degenerate heights, zero slope).  Under the
substitution `A = u_star / kappa`, `B = −A ln z_o` the objective is linear
least squares in `(A, B)`, so the minimizer is computed in closed form.
Standard errors are the square roots of the diagonal of the parameter
covariance matrix, propagated through `(A, B) ↦ (u_star, z_o)`. -/
noncomputable def fit (obs : List (ℝ × ℝ)) (guess : ℝ × ℝ) :
    Except FitError FitResult :=
  if guess.2 ≤ 0 ∨ ∃ p ∈ obs, p.1 ≤ 0 then Except.error FitError.domainError
  else if obsD obs = 0 then Except.error FitError.convergenceError
  else if obsA obs = 0 then Except.error FitError.convergenceError
  else
    Except.ok
    { u_star := kappa * obsA obs
      z_o := Real.exp (-(obsB obs / obsA obs))
      se_u_star := kappa * Real.sqrt (obsVarA obs)
      se_z_o := Real.exp (-(obsB obs / obsA obs)) * Real.sqrt
        ((obsB obs / obsA obs ^ 2) ^ 2 * obsVarA obs
          + (1 / obsA obs) ^ 2 * obsVarB obs
          - 2 * (obsB obs / obsA obs ^ 2) * (1 / obsA obs) * obsCovAB obs)
      n_observations := obs.length }

/-- Modelled from the spec: a fit invocation together with the observation
store it reads; the spec states the computation has no side effects beyond
returning the result, so the store after the call is the store it was
given. -/
noncomputable def fitInvoke (obs : List (ℝ × ℝ)) (guess : ℝ × ℝ) :
    Except FitError FitResult × List (ℝ × ℝ) :=
  (fit obs guess, obs)

end LawOfTheWall

namespace LawOfTheWall

/-! ## Theorems about the shipped code and the model -/

/-- Claim C10: as shipped, the body of `loglayer` contains no assignment to
the variable `u` it returns, so every call fails with an unbound-variable
`NameError` instead of returning a velocity value. -/
theorem loglayerShipped_nameError (z ustar zo : ℝ) :
    loglayerShipped z ustar zo = Except.error (PyError.nameError "u") := by
  rfl

/-- Claim C1: for every height `z > 0`, real `u_star`, and `z_o > 0`, the
model operation returns `u = (u_star / kappa) * ln(z / z_o)` with `kappa`
fixed at `0.41`. -/
theorem loglayer_eq_spec (z ustar zo : ℝ) (hz : 0 < z) (ho : 0 < zo) :
    loglayer z ustar zo = (ustar / 0.41) * Real.log (z / zo) ∧
      kappa = 0.41 := by
  exact ⟨rfl, rfl⟩

/-- Witness for C1 at `z = 2`, `u_star = 3`, `z_o = 1`. -/
theorem loglayer_eq_spec_witness :
    loglayer 2 3 1 = ((3 : ℝ) / 0.41) * Real.log (2 / 1) ∧ kappa = 0.41 :=
  loglayer_eq_spec 2 3 1 (by norm_num) (by norm_num)

/-- Claim C2: for every `z_o > 0` and every `u_star`, the model evaluated
at height `z = z_o` returns exactly `0`: the curve crosses zero velocity
at the roughness length. -/
theorem loglayer_at_zo (ustar zo : ℝ) (ho : 0 < zo) :
    loglayer zo ustar zo = 0 := by
  simp [loglayer, div_self (ne_of_gt ho)]

/-- Witness for C2 at `u_star = 5`, `z_o = 3`. -/
theorem loglayer_at_zo_witness : loglayer 3 5 3 = 0 :=
  loglayer_at_zo 5 3 (by norm_num)

/-- Claim C3: for `u_star > 0` and `z_o > 0` the model is strictly
increasing in `z` on `z > 0`, and for fixed `z`, `z_o` it is linear in
`u_star`. -/
theorem loglayer_mono_linear (z z' s t a b ustar zo : ℝ)
    (hz : 0 < z) (hzz : z < z') (hu : 0 < ustar) (ho : 0 < zo) :
    loglayer z ustar zo < loglayer z' ustar zo ∧
      loglayer z (a * s + b * t) zo =
        a * loglayer z s zo + b * loglayer z t zo := by
  constructor
  · have hlog : Real.log (z / zo) < Real.log (z' / zo) :=
      Real.log_lt_log (div_pos hz ho) ((div_lt_div_right ho).mpr hzz)
    exact mul_lt_mul_of_pos_left hlog (by
      have hk : (0 : ℝ) < kappa := by norm_num [kappa]
      exact div_pos hu hk)
  · unfold loglayer
    ring

/-- Witness for C3 at `z = 1`, `z' = 2`, `s = t = a = b = 1`,
`u_star = 1`, `z_o = 1`. -/
theorem loglayer_mono_linear_witness :
    loglayer 1 1 1 < loglayer 2 1 1 ∧
      loglayer 1 (1 * 1 + 1 * 1) 1 =
        1 * loglayer 1 1 1 + 1 * loglayer 1 1 1 :=
  loglayer_mono_linear 1 2 1 1 1 1 1 1 (by norm_num) (by norm_num)
    (by norm_num) (by norm_num)

/-- Claim C4: the model returns the modeled velocity at each input height
with the same shape as the input: a scalar yields a scalar (`loglayer`
itself), and a sequence of length `n` yields a sequence of length `n`
whose `i`-th entry is the model at the `i`-th height. -/
theorem loglayerVec_shape (zs : List ℝ) (ustar zo : ℝ) :
    (loglayerVec zs ustar zo).length = zs.length ∧
      ∀ i : ℕ, (loglayerVec zs ustar zo)[i]? =
        Option.map (fun z => loglayer z ustar zo) zs[i]? := by
  refine ⟨List.length_map _ _, fun i => ?_⟩
  simp [loglayerVec, List.getElem?_map]

/-- Claim C5: for every input with `z ≤ 0` or `z_o ≤ 0`, the checked model
fails (returns no finite velocity value): evaluating the model on such
inputs is invalid. -/
theorem loglayerChecked_invalid (z ustar zo : ℝ) (h : z ≤ 0 ∨ zo ≤ 0) :
    loglayerChecked z ustar zo = none := by
  unfold loglayerChecked
  rw [if_neg]
  rintro ⟨hz, ho⟩
  rcases h with h | h
  · exact absurd hz (not_lt.mpr h)
  · exact absurd ho (not_lt.mpr h)

/-- Witness for C5 at `z = -1`, `u_star = 2`, `z_o = 1`. -/
theorem loglayerChecked_invalid_witness :
    loglayerChecked (-1) 2 1 = none :=
  loglayerChecked_invalid (-1) 2 1 (Or.inl (by norm_num))

/-- Claim C6: given an initial guess with `z_o0 ≤ 0` or any observation
with `z_i ≤ 0`, the fit operation reports a distinguishable domain error
to the caller; on valid inputs whose minimization degenerates (the model's
non-convergence case), it reports a distinguishable convergence error.  It
never silently returns a result in either case. -/
theorem fit_reports_errors (obs : List (ℝ × ℝ)) (guess : ℝ × ℝ) :
    ((guess.2 ≤ 0 ∨ ∃ p ∈ obs, p.1 ≤ 0) →
      fit obs guess = Except.error FitError.domainError) ∧
    (¬(guess.2 ≤ 0 ∨ ∃ p ∈ obs, p.1 ≤ 0) → obsD obs = 0 →
      fit obs guess = Except.error FitError.convergenceError) := by
  constructor
  · intro h
    unfold fit
    rw [if_pos h]
  · intro h hd
    unfold fit
    rw [if_neg h, if_pos hd]

/-- Witness for C6: an observation at height `-1` forces a domain error,
and a single-observation profile at height `1` degenerates to a
convergence error. -/
theorem fit_reports_errors_witness :
    fit [((-1 : ℝ), (2 : ℝ))] (1, 1) = Except.error FitError.domainError ∧
    fit [((1 : ℝ), (5 : ℝ))] (1, 1) = Except.error FitError.convergenceError := by
  constructor
  · exact (fit_reports_errors [((-1 : ℝ), (2 : ℝ))] (1, 1)).1
      (Or.inr ⟨(-1, 2), by simp, by norm_num⟩)
  · refine (fit_reports_errors [((1 : ℝ), (5 : ℝ))] (1, 1)).2 ?_ ?_
    · push_neg
      refine ⟨by norm_num, ?_⟩
      intro p hp
      simp only [List.mem_cons, List.not_mem_nil, or_false] at hp
      rcases hp with rfl
      norm_num
    · simp [obsD, obsN, obsSx, obsSxx, Real.log_one]

/-- The model is affine in the log-height: for `z > 0`, `z_o > 0`,
`loglayer z u_star z_o = (u_star/kappa) · ln z − (u_star/kappa) · ln z_o`. -/
theorem loglayer_eq_affine (z ustar zo : ℝ) (hz : 0 < z) (ho : 0 < zo) :
    loglayer z ustar zo =
      ustar / kappa * Real.log z + -(ustar / kappa * Real.log zo) := by
  unfold loglayer
  rw [Real.log_div (ne_of_gt hz) (ne_of_gt ho)]
  ring

/-- If every observation lies on the line `u = A0 · ln z + B0`, the sum of
velocities is `A0 Σx + B0 n`. -/
theorem obsSy_on_line (A0 B0 : ℝ) :
    ∀ obs : List (ℝ × ℝ),
      (∀ p ∈ obs, p.2 = A0 * Real.log p.1 + B0) →
        obsSy obs = A0 * obsSx obs + B0 * obsN obs := by
  intro obs
  induction obs with
  | nil => intro _; simp [obsSy, obsSx, obsN]
  | cons p l ih =>
    intro h
    have hp := h p (List.mem_cons_self p l)
    have hl := ih (fun q hq => h q (List.mem_cons_of_mem p hq))
    simp only [obsSy, obsSx, obsN, List.map_cons, List.sum_cons,
      List.length_cons] at hl ⊢
    push_cast
    push_cast at hl
    linear_combination hp + hl

/-- If every observation lies on the line `u = A0 · ln z + B0`, the sum
`Σ x u` is `A0 Σx² + B0 Σx`. -/
theorem obsSxy_on_line (A0 B0 : ℝ) :
    ∀ obs : List (ℝ × ℝ),
      (∀ p ∈ obs, p.2 = A0 * Real.log p.1 + B0) →
        obsSxy obs = A0 * obsSxx obs + B0 * obsSx obs := by
  intro obs
  induction obs with
  | nil => intro _; simp [obsSxy, obsSxx, obsSx]
  | cons p l ih =>
    intro h
    have hp := h p (List.mem_cons_self p l)
    have hl := ih (fun q hq => h q (List.mem_cons_of_mem p hq))
    simp only [obsSxy, obsSxx, obsSx, List.map_cons, List.sum_cons] at hl ⊢
    linear_combination Real.log p.1 * hp + hl

/-- A nonzero normal-equation determinant forces a nonempty observation
list. -/
theorem obsN_ne_zero_of_obsD (obs : List (ℝ × ℝ)) (hd : obsD obs ≠ 0) :
    obsN obs ≠ 0 := by
  intro h0
  apply hd
  have hlen : obs.length = 0 := by
    unfold obsN at h0
    exact_mod_cast h0
  rw [List.length_eq_zero] at hlen
  subst hlen
  simp [obsD, obsN, obsSx, obsSxx]

/-- On noiseless data on the line `u = A0 · ln z + B0`, the least-squares
slope is exactly `A0`. -/
theorem obsA_on_line (A0 B0 : ℝ) (obs : List (ℝ × ℝ))
    (h : ∀ p ∈ obs, p.2 = A0 * Real.log p.1 + B0) (hd : obsD obs ≠ 0) :
    obsA obs = A0 := by
  rw [obsA, obsSxy_on_line A0 B0 obs h, obsSy_on_line A0 B0 obs h,
    div_eq_iff hd]
  unfold obsD
  ring

/-- On noiseless data on the line `u = A0 · ln z + B0`, the least-squares
intercept is exactly `B0`. -/
theorem obsB_on_line (A0 B0 : ℝ) (obs : List (ℝ × ℝ))
    (h : ∀ p ∈ obs, p.2 = A0 * Real.log p.1 + B0) (hd : obsD obs ≠ 0) :
    obsB obs = B0 := by
  rw [obsB, obsA_on_line A0 B0 obs h hd, obsSy_on_line A0 B0 obs h,
    div_eq_iff (obsN_ne_zero_of_obsD obs hd)]
  ring

/-- On noiseless data on the line `u = A0 · ln z + B0` with positive
heights, a nondegenerate design, and `A0 ≠ 0`, the fit succeeds and
returns exactly the line's parameters mapped back to `(u_star, z_o)`. -/
theorem fit_ok_on_line (A0 B0 : ℝ) (obs : List (ℝ × ℝ)) (g : ℝ × ℝ)
    (hg : 0 < g.2) (hpos : ∀ p ∈ obs, 0 < p.1)
    (h : ∀ p ∈ obs, p.2 = A0 * Real.log p.1 + B0)
    (hA0 : A0 ≠ 0) (hd : obsD obs ≠ 0) :
    ∃ r : FitResult, fit obs g = Except.ok r ∧
      r.u_star = kappa * A0 ∧ r.z_o = Real.exp (-(B0 / A0)) := by
  have hA := obsA_on_line A0 B0 obs h hd
  have hB := obsB_on_line A0 B0 obs h hd
  have hcond : ¬(g.2 ≤ 0 ∨ ∃ p ∈ obs, p.1 ≤ 0) := by
    push_neg
    exact ⟨hg, hpos⟩
  have hAne : obsA obs ≠ 0 := by rw [hA]; exact hA0
  unfold fit
  rw [if_neg hcond, if_neg hd, if_neg hAne]
  refine ⟨_, rfl, ?_, ?_⟩
  · show kappa * obsA obs = kappa * A0
    rw [hA]
  · show Real.exp (-(obsB obs / obsA obs)) = Real.exp (-(B0 / A0))
    rw [hA, hB]

/-- Claim C7: round-trip: for data generated by the model at several
(here three, two of them distinct) positive heights with known parameters
`(u_star, z_o)` and no noise, the fit with a positive initial roughness
guess recovers the generating parameters to within relative error
`< 1e-6` (in fact exactly). -/
theorem fit_roundtrip (z1 z2 z3 ustar zo : ℝ) (g : ℝ × ℝ)
    (h1 : 0 < z1) (h2 : 0 < z2) (h3 : 0 < z3) (h12 : z1 ≠ z2)
    (hu : 0 < ustar) (ho : 0 < zo) (hg : 0 < g.2) :
    ∃ r : FitResult,
      fit [(z1, loglayer z1 ustar zo), (z2, loglayer z2 ustar zo),
        (z3, loglayer z3 ustar zo)] g = Except.ok r ∧
      |r.u_star - ustar| < 1e-6 * ustar ∧ |r.z_o - zo| < 1e-6 * zo := by
  have hk : (kappa : ℝ) ≠ 0 := by norm_num [kappa]
  have hA0 : ustar / kappa ≠ 0 := div_ne_zero (ne_of_gt hu) hk
  have hline : ∀ p ∈ [(z1, loglayer z1 ustar zo), (z2, loglayer z2 ustar zo),
      (z3, loglayer z3 ustar zo)],
      p.2 = ustar / kappa * Real.log p.1 + -(ustar / kappa * Real.log zo) := by
    intro p hp
    simp only [List.mem_cons, List.not_mem_nil, or_false] at hp
    rcases hp with rfl | rfl | rfl
    · exact loglayer_eq_affine z1 ustar zo h1 ho
    · exact loglayer_eq_affine z2 ustar zo h2 ho
    · exact loglayer_eq_affine z3 ustar zo h3 ho
  have hpos : ∀ p ∈ [(z1, loglayer z1 ustar zo), (z2, loglayer z2 ustar zo),
      (z3, loglayer z3 ustar zo)], 0 < p.1 := by
    intro p hp
    simp only [List.mem_cons, List.not_mem_nil, or_false] at hp
    rcases hp with rfl | rfl | rfl
    · exact h1
    · exact h2
    · exact h3
  have hx12 : Real.log z1 ≠ Real.log z2 := by
    intro hlog
    apply h12
    calc z1 = Real.exp (Real.log z1) := (Real.exp_log h1).symm
      _ = Real.exp (Real.log z2) := by rw [hlog]
      _ = z2 := Real.exp_log h2
  have hd : obsD [(z1, loglayer z1 ustar zo), (z2, loglayer z2 ustar zo),
      (z3, loglayer z3 ustar zo)] ≠ 0 := by
    apply ne_of_gt
    simp only [obsD, obsN, obsSx, obsSxx, List.map_cons, List.map_nil,
      List.sum_cons, List.sum_nil, List.length_cons, List.length_nil]
    push_cast
    have hsq : 0 < (Real.log z1 - Real.log z2) ^ 2 :=
      lt_of_le_of_ne (sq_nonneg _)
        (Ne.symm (pow_ne_zero 2 (sub_ne_zero.mpr hx12)))
    nlinarith [sq_nonneg (Real.log z1 - Real.log z3),
      sq_nonneg (Real.log z2 - Real.log z3), hsq]
  obtain ⟨r, hr, hru, hrz⟩ := fit_ok_on_line (ustar / kappa)
    (-(ustar / kappa * Real.log zo)) _ g hg hpos hline hA0 hd
  have hustar : kappa * (ustar / kappa) = ustar := by field_simp
  have hzo : Real.exp (-(-(ustar / kappa * Real.log zo) / (ustar / kappa)))
      = zo := by
    rw [neg_div, neg_neg, mul_div_cancel_left₀ _ hA0, Real.exp_log ho]
  refine ⟨r, hr, ?_, ?_⟩
  · rw [hru, hustar, sub_self, abs_zero]
    positivity
  · rw [hrz, hzo, sub_self, abs_zero]
    positivity

/-- Witness for C7 at heights `1, 2, 4` with `u_star = 1`, `z_o = 1`,
initial guess `(1, 1)`. -/
theorem fit_roundtrip_witness :
    ∃ r : FitResult,
      fit [((1 : ℝ), loglayer 1 1 1), (2, loglayer 2 1 1),
        (4, loglayer 4 1 1)] (1, 1) = Except.ok r ∧
      |r.u_star - 1| < 1e-6 * 1 ∧ |r.z_o - 1| < 1e-6 * 1 :=
  fit_roundtrip 1 2 4 1 1 (1, 1) (by norm_num) (by norm_num) (by norm_num)
    (by norm_num) (by norm_num) (by norm_num) (by norm_num)

/-- Series enclosure of `ln 22`, via `22 = 2⁵ · (11/16)`. -/
theorem log_22_bounds : (3.091042 : ℝ) < Real.log 22 ∧
    Real.log 22 < 3.091043 := by
  have h2l := Real.log_two_gt_d9
  have h2u := Real.log_two_lt_d9
  have habs : |(5 / 16 : ℝ)| = 5 / 16 := by rw [abs_of_pos]; norm_num
  have hs := Real.abs_log_sub_add_sum_range_le
    (x := 5 / 16) (by rw [habs]; norm_num) 12
  rw [habs, abs_le] at hs
  obtain ⟨hs1, hs2⟩ := hs
  norm_num [Finset.sum_range_succ] at hs1 hs2
  have h22 : Real.log 22 = 5 * Real.log 2 + Real.log (11 / 16) := by
    have h : (22 : ℝ) = 2 ^ 5 * (11 / 16) := by norm_num
    rw [h, Real.log_mul (by norm_num) (by norm_num), Real.log_pow]
    norm_num
  constructor <;> rw [h22] <;> linarith

/-- Series enclosure of `ln 55`, via `55 = 2⁶ · (55/64)`. -/
theorem log_55_bounds : (4.007333 : ℝ) < Real.log 55 ∧
    Real.log 55 < 4.007334 := by
  have h2l := Real.log_two_gt_d9
  have h2u := Real.log_two_lt_d9
  have habs : |(9 / 64 : ℝ)| = 9 / 64 := by rw [abs_of_pos]; norm_num
  have hs := Real.abs_log_sub_add_sum_range_le
    (x := 9 / 64) (by rw [habs]; norm_num) 12
  rw [habs, abs_le] at hs
  obtain ⟨hs1, hs2⟩ := hs
  norm_num [Finset.sum_range_succ] at hs1 hs2
  have h55 : Real.log 55 = 6 * Real.log 2 + Real.log (55 / 64) := by
    have h : (55 : ℝ) = 2 ^ 6 * (55 / 64) := by norm_num
    rw [h, Real.log_mul (by norm_num) (by norm_num), Real.log_pow]
    norm_num
  constructor <;> rw [h55] <;> linarith

/-- Series enclosure of `ln 89`, via `89 = 2⁷ · (89/128)`. -/
theorem log_89_bounds : (4.488636 : ℝ) < Real.log 89 ∧
    Real.log 89 < 4.488637 := by
  have h2l := Real.log_two_gt_d9
  have h2u := Real.log_two_lt_d9
  have habs : |(39 / 128 : ℝ)| = 39 / 128 := by rw [abs_of_pos]; norm_num
  have hs := Real.abs_log_sub_add_sum_range_le
    (x := 39 / 128) (by rw [habs]; norm_num) 12
  rw [habs, abs_le] at hs
  obtain ⟨hs1, hs2⟩ := hs
  norm_num [Finset.sum_range_succ] at hs1 hs2
  have h89 : Real.log 89 = 7 * Real.log 2 + Real.log (89 / 128) := by
    have h : (89 : ℝ) = 2 ^ 7 * (89 / 128) := by norm_num
    rw [h, Real.log_mul (by norm_num) (by norm_num), Real.log_pow]
    norm_num
  constructor <;> rw [h89] <;> linarith

/-- Series enclosure of `ln 123`, via `123 = 2⁷ · (123/128)`. -/
theorem log_123_bounds : (4.812184 : ℝ) < Real.log 123 ∧
    Real.log 123 < 4.812185 := by
  have h2l := Real.log_two_gt_d9
  have h2u := Real.log_two_lt_d9
  have habs : |(5 / 128 : ℝ)| = 5 / 128 := by rw [abs_of_pos]; norm_num
  have hs := Real.abs_log_sub_add_sum_range_le
    (x := 5 / 128) (by rw [habs]; norm_num) 12
  rw [habs, abs_le] at hs
  obtain ⟨hs1, hs2⟩ := hs
  norm_num [Finset.sum_range_succ] at hs1 hs2
  have h123 : Real.log 123 = 7 * Real.log 2 + Real.log (123 / 128) := by
    have h : (123 : ℝ) = 2 ^ 7 * (123 / 128) := by norm_num
    rw [h, Real.log_mul (by norm_num) (by norm_num), Real.log_pow]
    norm_num
  constructor <;> rw [h123] <;> linarith

/-- Interval-arithmetic core for the notebook's profile: from enclosures
of the four log-heights, bounds on the least-squares slope, intercept,
and parameter variances follow.  Stated over plain reals; the equations
are the definitions of the statistics, discharged by unfolding at the
instantiation. -/
theorem lsq_interval_core
    (x1 x2 x3 x4 sx sxx sxy d a b ssr sg va vb cv : ℝ)
    (hx1l : (3.091042 : ℝ) < x1) (hx1u : x1 < 3.091043)
    (hx2l : (4.007333 : ℝ) < x2) (hx2u : x2 < 4.007334)
    (hx3l : (4.488636 : ℝ) < x3) (hx3u : x3 < 4.488637)
    (hx4l : (4.812184 : ℝ) < x4) (hx4u : x4 < 4.812185)
    (hsx : sx = x1 + (x2 + (x3 + (x4 + 0))))
    (hsxx : sxx = x1 ^ 2 + (x2 ^ 2 + (x3 ^ 2 + (x4 ^ 2 + 0))))
    (hsxy : sxy = x1 * 41.8 + (x2 * 50.4 + (x3 * 55.0 + (x4 * 58.4 + 0))))
    (hd : d = 4 * sxx - sx ^ 2)
    (ha : a = (4 * sxy - sx * 205.6) / d)
    (hb : b = (205.6 - a * sx) / 4)
    (hssr : ssr = (41.8 - (a * x1 + b)) ^ 2 + ((50.4 - (a * x2 + b)) ^ 2 +
      ((55.0 - (a * x3 + b)) ^ 2 + ((58.4 - (a * x4 + b)) ^ 2 + 0))))
    (hsg : sg = ssr / 2)
    (hva : va = sg * 4 / d)
    (hvb : vb = sg * sxx / d)
    (hcv : cv = -(sg * sx / d)) :
    0 < d ∧ ((9.592978 : ℝ) ≤ a ∧ a ≤ 9.593605) ∧
      ((12.068140 : ℝ) ≤ b ∧ b ≤ 12.070721) ∧
      ((0.018005 : ℝ) ≤ va ∧ va ≤ 0.019527) ∧
      (0.310229 : ℝ) ≤ vb ∧ cv ≤ 0 := by
  have hsxl : (16.399195 : ℝ) ≤ sx := by
    rw [hsx]; linarith only [hx1l, hx2l, hx3l, hx4l]
  have hsxu : sx ≤ 16.399199 := by
    rw [hsx]; linarith only [hx1u, hx2u, hx3u, hx4u]
  have hx1sql : (3.091042 : ℝ) ^ 2 ≤ x1 ^ 2 :=
    pow_le_pow_left₀ (by norm_num) hx1l.le 2
  have hx1squ : x1 ^ 2 ≤ (3.091043 : ℝ) ^ 2 :=
    pow_le_pow_left₀ (by linarith only [hx1l]) hx1u.le 2
  have hx2sql : (4.007333 : ℝ) ^ 2 ≤ x2 ^ 2 :=
    pow_le_pow_left₀ (by norm_num) hx2l.le 2
  have hx2squ : x2 ^ 2 ≤ (4.007334 : ℝ) ^ 2 :=
    pow_le_pow_left₀ (by linarith only [hx2l]) hx2u.le 2
  have hx3sql : (4.488636 : ℝ) ^ 2 ≤ x3 ^ 2 :=
    pow_le_pow_left₀ (by norm_num) hx3l.le 2
  have hx3squ : x3 ^ 2 ≤ (4.488637 : ℝ) ^ 2 :=
    pow_le_pow_left₀ (by linarith only [hx3l]) hx3u.le 2
  have hx4sql : (4.812184 : ℝ) ^ 2 ≤ x4 ^ 2 :=
    pow_le_pow_left₀ (by norm_num) hx4l.le 2
  have hx4squ : x4 ^ 2 ≤ (4.812185 : ℝ) ^ 2 :=
    pow_le_pow_left₀ (by linarith only [hx4l]) hx4u.le 2
  have hsxxl : (68.918226 : ℝ) ≤ sxx := by
    rw [hsxx]; linarith only [hx1sql, hx2sql, hx3sql, hx4sql]
  have hsxxu : sxx ≤ 68.918260 := by
    rw [hsxx]; linarith only [hx1squ, hx2squ, hx3squ, hx4squ]
  have hsxyl : (859.081664 : ℝ) ≤ sxy := by
    rw [hsxy]; linarith only [hx1l, hx2l, hx3l, hx4l]
  have hsxyu : sxy ≤ 859.081870 := by
    rw [hsxy]; linarith only [hx1u, hx2u, hx3u, hx4u]
  have hsx_sql : (16.399195 : ℝ) ^ 2 ≤ sx ^ 2 :=
    pow_le_pow_left₀ (by norm_num) hsxl 2
  have hsx_squ : sx ^ 2 ≤ (16.399199 : ℝ) ^ 2 :=
    pow_le_pow_left₀ (by linarith only [hsxl]) hsxu 2
  have hdl : (6.739176 : ℝ) ≤ d := by
    rw [hd]; linarith only [hsxxl, hsx_squ]
  have hdu : d ≤ 6.739444 := by
    rw [hd]; linarith only [hsxxu, hsx_sql]
  have hdpos : (0 : ℝ) < d := by linarith only [hdl]
  have hal : (9.592978 : ℝ) ≤ a := by
    rw [ha, le_div_iff hdpos]
    linarith only [hdu, hsxyl, hsxu]
  have hau : a ≤ 9.593605 := by
    rw [ha, div_le_iff hdpos]
    linarith only [hdl, hsxyu, hsxl]
  have hasxl : (9.592978 : ℝ) * 16.399195 ≤ a * sx :=
    mul_le_mul hal hsxl (by norm_num) (by linarith only [hal])
  have hasxu : a * sx ≤ 9.593605 * 16.399199 :=
    mul_le_mul hau hsxu (by linarith only [hsxl]) (by norm_num)
  have hbl : (12.068140 : ℝ) ≤ b := by
    rw [hb, le_div_iff (by norm_num : (0 : ℝ) < 4)]
    linarith only [hasxu]
  have hbu : b ≤ 12.070721 := by
    rw [hb, div_le_iff (by norm_num : (0 : ℝ) < 4)]
    linarith only [hasxl]
  have hax1l : (9.592978 : ℝ) * 3.091042 ≤ a * x1 :=
    mul_le_mul hal hx1l.le (by norm_num) (by linarith only [hal])
  have hax1u : a * x1 ≤ 9.593605 * 3.091043 :=
    mul_le_mul hau hx1u.le (by linarith only [hx1l]) (by norm_num)
  have hax2l : (9.592978 : ℝ) * 4.007333 ≤ a * x2 :=
    mul_le_mul hal hx2l.le (by norm_num) (by linarith only [hal])
  have hax2u : a * x2 ≤ 9.593605 * 4.007334 :=
    mul_le_mul hau hx2u.le (by linarith only [hx2l]) (by norm_num)
  have hax3l : (9.592978 : ℝ) * 4.488636 ≤ a * x3 :=
    mul_le_mul hal hx3l.le (by norm_num) (by linarith only [hal])
  have hax3u : a * x3 ≤ 9.593605 * 4.488637 :=
    mul_le_mul hau hx3u.le (by linarith only [hx3l]) (by norm_num)
  have hax4l : (9.592978 : ℝ) * 4.812184 ≤ a * x4 :=
    mul_le_mul hal hx4l.le (by norm_num) (by linarith only [hal])
  have hax4u : a * x4 ≤ 9.593605 * 4.812185 :=
    mul_le_mul hau hx4u.le (by linarith only [hx4l]) (by norm_num)
  have hr1l : (0.075033 : ℝ) ≤ 41.8 - (a * x1 + b) := by
    linarith only [hax1u, hbu]
  have hr1u : 41.8 - (a * x1 + b) ≤ 0.079563 := by
    linarith only [hax1l, hbl]
  have hr2l : (-0.115501 : ℝ) ≤ 50.4 - (a * x2 + b) := by
    linarith only [hax2u, hbu]
  have hr2u : 50.4 - (a * x2 + b) ≤ -0.110397 := by
    linarith only [hax2l, hbl]
  have hr3l : (-0.132932 : ℝ) ≤ 55.0 - (a * x3 + b) := by
    linarith only [hax3u, hbu]
  have hr3u : 55.0 - (a * x3 + b) ≤ -0.127526 := by
    linarith only [hax3l, hbl]
  have hr4l : (0.163076 : ℝ) ≤ 58.4 - (a * x4 + b) := by
    linarith only [hax4u, hbu]
  have hr4u : 58.4 - (a * x4 + b) ≤ 0.168685 := by
    linarith only [hax4l, hbl]
  have hs1l : (0.075033 : ℝ) ^ 2 ≤ (41.8 - (a * x1 + b)) ^ 2 := by
    nlinarith only [hr1l, hr1u]
  have hs1u : (41.8 - (a * x1 + b)) ^ 2 ≤ (0.079563 : ℝ) ^ 2 := by
    nlinarith only [hr1l, hr1u]
  have hs2l : (0.110397 : ℝ) ^ 2 ≤ (50.4 - (a * x2 + b)) ^ 2 := by
    nlinarith only [hr2l, hr2u]
  have hs2u : (50.4 - (a * x2 + b)) ^ 2 ≤ (0.115501 : ℝ) ^ 2 := by
    nlinarith only [hr2l, hr2u]
  have hs3l : (0.127526 : ℝ) ^ 2 ≤ (55.0 - (a * x3 + b)) ^ 2 := by
    nlinarith only [hr3l, hr3u]
  have hs3u : (55.0 - (a * x3 + b)) ^ 2 ≤ (0.132932 : ℝ) ^ 2 := by
    nlinarith only [hr3l, hr3u]
  have hs4l : (0.163076 : ℝ) ^ 2 ≤ (58.4 - (a * x4 + b)) ^ 2 := by
    nlinarith only [hr4l, hr4u]
  have hs4u : (58.4 - (a * x4 + b)) ^ 2 ≤ (0.168685 : ℝ) ^ 2 := by
    nlinarith only [hr4l, hr4u]
  have hssrl : (0.060674 : ℝ) ≤ ssr := by
    rw [hssr]; linarith only [hs1l, hs2l, hs3l, hs4l]
  have hssru : ssr ≤ 0.065797 := by
    rw [hssr]; linarith only [hs1u, hs2u, hs3u, hs4u]
  have hsgl : (0.030337 : ℝ) ≤ sg := by
    rw [hsg]; linarith only [hssrl]
  have hsgu : sg ≤ 0.0328985 := by
    rw [hsg]; linarith only [hssru]
  have hval : (0.018005 : ℝ) ≤ va := by
    rw [hva, le_div_iff hdpos]
    linarith only [hsgl, hdu]
  have hvau : va ≤ 0.019527 := by
    rw [hva, div_le_iff hdpos]
    linarith only [hsgu, hdl]
  have hsgsxx : (0.030337 : ℝ) * 68.918226 ≤ sg * sxx :=
    mul_le_mul hsgl hsxxl (by norm_num) (by linarith only [hsgl])
  have hvbl : (0.310229 : ℝ) ≤ vb := by
    rw [hvb, le_div_iff hdpos]
    linarith only [hsgsxx, hdu]
  have hcv0 : cv ≤ 0 := by
    rw [hcv, neg_nonpos]
    exact div_nonneg (mul_nonneg (by linarith only [hsgl])
      (by linarith only [hsxl])) hdpos.le
  exact ⟨hdpos, ⟨hal, hau⟩, ⟨hbl, hbu⟩, ⟨hval, hvau⟩, hvbl, hcv0⟩

/-- The interval-arithmetic core instantiated at the notebook's
hard-coded profile. -/
theorem concrete_fit_bounds :
    0 < obsD ([(22, 41.8), (55, 50.4), (89, 55.0), (123, 58.4)] : List (ℝ × ℝ)) ∧
    ((9.592978 : ℝ) ≤
        obsA ([(22, 41.8), (55, 50.4), (89, 55.0), (123, 58.4)] : List (ℝ × ℝ)) ∧
      obsA ([(22, 41.8), (55, 50.4), (89, 55.0), (123, 58.4)] : List (ℝ × ℝ)) ≤
        9.593605) ∧
    ((12.068140 : ℝ) ≤
        obsB ([(22, 41.8), (55, 50.4), (89, 55.0), (123, 58.4)] : List (ℝ × ℝ)) ∧
      obsB ([(22, 41.8), (55, 50.4), (89, 55.0), (123, 58.4)] : List (ℝ × ℝ)) ≤
        12.070721) ∧
    ((0.018005 : ℝ) ≤
        obsVarA ([(22, 41.8), (55, 50.4), (89, 55.0), (123, 58.4)] : List (ℝ × ℝ)) ∧
      obsVarA ([(22, 41.8), (55, 50.4), (89, 55.0), (123, 58.4)] : List (ℝ × ℝ)) ≤
        0.019527) ∧
    (0.310229 : ℝ) ≤
      obsVarB ([(22, 41.8), (55, 50.4), (89, 55.0), (123, 58.4)] : List (ℝ × ℝ)) ∧
    obsCovAB ([(22, 41.8), (55, 50.4), (89, 55.0), (123, 58.4)] : List (ℝ × ℝ)) ≤ 0 := by
  obtain ⟨hL1l, hL1u⟩ := log_22_bounds
  obtain ⟨hL2l, hL2u⟩ := log_55_bounds
  obtain ⟨hL3l, hL3u⟩ := log_89_bounds
  obtain ⟨hL4l, hL4u⟩ := log_123_bounds
  have hN4 : obsN ([(22, 41.8), (55, 50.4), (89, 55.0), (123, 58.4)] :
      List (ℝ × ℝ)) = 4 := by
    norm_num [obsN]
  have hSy : obsSy ([(22, 41.8), (55, 50.4), (89, 55.0), (123, 58.4)] :
      List (ℝ × ℝ)) = 205.6 := by
    norm_num [obsSy]
  have hlen : 2 < ([(22, 41.8), (55, 50.4), (89, 55.0), (123, 58.4)] :
      List (ℝ × ℝ)).length := by
    norm_num
  refine lsq_interval_core (Real.log 22) (Real.log 55) (Real.log 89)
    (Real.log 123)
    (obsSx ([(22, 41.8), (55, 50.4), (89, 55.0), (123, 58.4)] : List (ℝ × ℝ)))
    (obsSxx ([(22, 41.8), (55, 50.4), (89, 55.0), (123, 58.4)] : List (ℝ × ℝ)))
    (obsSxy ([(22, 41.8), (55, 50.4), (89, 55.0), (123, 58.4)] : List (ℝ × ℝ)))
    (obsD ([(22, 41.8), (55, 50.4), (89, 55.0), (123, 58.4)] : List (ℝ × ℝ)))
    (obsA ([(22, 41.8), (55, 50.4), (89, 55.0), (123, 58.4)] : List (ℝ × ℝ)))
    (obsB ([(22, 41.8), (55, 50.4), (89, 55.0), (123, 58.4)] : List (ℝ × ℝ)))
    (obsSSR ([(22, 41.8), (55, 50.4), (89, 55.0), (123, 58.4)] : List (ℝ × ℝ)))
    (obsSigma2 ([(22, 41.8), (55, 50.4), (89, 55.0), (123, 58.4)] : List (ℝ × ℝ)))
    (obsVarA ([(22, 41.8), (55, 50.4), (89, 55.0), (123, 58.4)] : List (ℝ × ℝ)))
    (obsVarB ([(22, 41.8), (55, 50.4), (89, 55.0), (123, 58.4)] : List (ℝ × ℝ)))
    (obsCovAB ([(22, 41.8), (55, 50.4), (89, 55.0), (123, 58.4)] : List (ℝ × ℝ)))
    hL1l hL1u hL2l hL2u hL3l hL3u hL4l hL4u ?_ ?_ ?_ ?_ ?_ ?_ ?_ ?_ ?_ ?_ ?_
  · simp only [obsSx, List.map_cons, List.map_nil, List.sum_cons, List.sum_nil]
  · simp only [obsSxx, List.map_cons, List.map_nil, List.sum_cons, List.sum_nil]
  · simp only [obsSxy, List.map_cons, List.map_nil, List.sum_cons, List.sum_nil]
  · rw [obsD, hN4]
  · rw [obsA, hN4, hSy]
  · rw [obsB, hN4, hSy]
  · simp only [obsSSR, List.map_cons, List.map_nil, List.sum_cons, List.sum_nil]
  · rw [obsSigma2, if_pos hlen, hN4]
    norm_num
  · rw [obsVarA, hN4]
  · rw [obsVarB]
  · rw [obsCovAB]

/-- Taylor upper bound `exp 1.258288 < 3.519392`, via
`exp 1.258288 = e · exp 0.258288`. -/
theorem exp_qhi_ub : Real.exp 1.258288 < 3.519392 := by
  have hb := Real.exp_bound' (x := 0.258288) (by norm_num) (by norm_num)
    (n := 8) (by norm_num)
  have hb' : Real.exp 0.258288 ≤ 1.2947117 := by
    refine le_trans hb ?_
    norm_num [Finset.sum_range_succ, Nat.factorial]
  have hsplit : (1.258288 : ℝ) = 1 + 0.258288 := by norm_num
  calc Real.exp 1.258288 = Real.exp 1 * Real.exp 0.258288 := by
        rw [hsplit, Real.exp_add]
    _ ≤ 2.7182818286 * 1.2947117 :=
        mul_le_mul Real.exp_one_lt_d9.le hb' (Real.exp_pos _).le (by norm_num)
    _ < 3.519392 := by norm_num

/-- Taylor lower bound `3.518148 < exp 1.257935`, via
`exp 1.257935 = e · exp 0.257935`. -/
theorem exp_qlo_lb : (3.518148 : ℝ) < Real.exp 1.257935 := by
  have hb := Real.sum_le_exp_of_nonneg
    (x := 0.257935) (by norm_num) 8
  have hb' : (1.2942546 : ℝ) ≤ Real.exp 0.257935 := by
    refine le_trans ?_ hb
    norm_num [Finset.sum_range_succ, Nat.factorial]
  have hsplit : (1.257935 : ℝ) = 1 + 0.257935 := by norm_num
  calc (3.518148 : ℝ) < 2.7182818283 * 1.2942546 := by norm_num
    _ ≤ Real.exp 1 * Real.exp 0.257935 :=
        mul_le_mul Real.exp_one_gt_d9.le hb' (by norm_num) (Real.exp_pos _).le
    _ = Real.exp 1.257935 := by rw [hsplit, Real.exp_add]

/-- Claim C8: for the notebook's hard-coded observation set
`z = [22, 55, 89, 123]` (cm), `u = [41.8, 50.4, 55.0, 58.4]` (cm/s), the
fit succeeds and its estimates of `u_star` and `z_o` fall within a few
(here: three) standard errors of the hand-derived reference values
`u_star ≈ 3.98` cm/s and `z_o ≈ 0.30` cm. -/
theorem fit_concrete_scenario :
    ∃ r : FitResult,
      fit obsData (3.98, 0.30) = Except.ok r ∧
        |r.u_star - 3.98| ≤ 3 * r.se_u_star ∧
        |r.z_o - 0.30| ≤ 3 * r.se_z_o := by
  have hobs : obsData =
      ([(22, 41.8), (55, 50.4), (89, 55.0), (123, 58.4)] : List (ℝ × ℝ)) := rfl
  rw [hobs]
  obtain ⟨hdpos, ⟨hal, hau⟩, ⟨hbl, hbu⟩, ⟨hval, hvau⟩, hvbl, hcv0⟩ :=
    concrete_fit_bounds
  have hapos : (0 : ℝ) <
      obsA ([(22, 41.8), (55, 50.4), (89, 55.0), (123, 58.4)] : List (ℝ × ℝ)) := by
    linarith only [hal]
  have hd0 : obsD ([(22, 41.8), (55, 50.4), (89, 55.0), (123, 58.4)] :
      List (ℝ × ℝ)) ≠ 0 := ne_of_gt hdpos
  have ha0 : obsA ([(22, 41.8), (55, 50.4), (89, 55.0), (123, 58.4)] :
      List (ℝ × ℝ)) ≠ 0 := ne_of_gt hapos
  have hguard : ¬(((3.98 : ℝ), (0.30 : ℝ)).2 ≤ 0 ∨
      ∃ p ∈ ([(22, 41.8), (55, 50.4), (89, 55.0), (123, 58.4)] : List (ℝ × ℝ)),
        p.1 ≤ 0) := by
    push_neg
    refine ⟨by norm_num, ?_⟩
    intro p hp
    simp only [List.mem_cons, List.not_mem_nil, or_false] at hp
    rcases hp with rfl | rfl | rfl | rfl <;> norm_num
  have hsqA : (0.134 : ℝ) ≤ Real.sqrt
      (obsVarA ([(22, 41.8), (55, 50.4), (89, 55.0), (123, 58.4)] :
        List (ℝ × ℝ))) := by
    rw [Real.le_sqrt' (by norm_num)]
    linarith only [hval]
  have hql : (1.257935 : ℝ) ≤
      obsB ([(22, 41.8), (55, 50.4), (89, 55.0), (123, 58.4)] : List (ℝ × ℝ)) /
        obsA ([(22, 41.8), (55, 50.4), (89, 55.0), (123, 58.4)] : List (ℝ × ℝ)) := by
    rw [le_div_iff hapos]
    linarith only [hau, hbl]
  have hqu : obsB ([(22, 41.8), (55, 50.4), (89, 55.0), (123, 58.4)] : List (ℝ × ℝ)) /
        obsA ([(22, 41.8), (55, 50.4), (89, 55.0), (123, 58.4)] : List (ℝ × ℝ)) ≤
      1.258288 := by
    rw [div_le_iff hapos]
    linarith only [hal, hbu]
  have hzl : (0.284139 : ℝ) ≤ Real.exp
      (-(obsB ([(22, 41.8), (55, 50.4), (89, 55.0), (123, 58.4)] : List (ℝ × ℝ)) /
        obsA ([(22, 41.8), (55, 50.4), (89, 55.0), (123, 58.4)] : List (ℝ × ℝ)))) := by
    have h1 : Real.exp (-(1.258288 : ℝ)) ≤ Real.exp
        (-(obsB ([(22, 41.8), (55, 50.4), (89, 55.0), (123, 58.4)] : List (ℝ × ℝ)) /
          obsA ([(22, 41.8), (55, 50.4), (89, 55.0), (123, 58.4)] : List (ℝ × ℝ)))) :=
      Real.exp_le_exp.mpr (by linarith only [hqu])
    have h2 : (0.284139 : ℝ) ≤ Real.exp (-(1.258288 : ℝ)) := by
      rw [Real.exp_neg, ← one_div, le_div_iff (Real.exp_pos _)]
      linarith only [exp_qhi_ub]
    linarith only [h1, h2]
  have hzu : Real.exp
      (-(obsB ([(22, 41.8), (55, 50.4), (89, 55.0), (123, 58.4)] : List (ℝ × ℝ)) /
        obsA ([(22, 41.8), (55, 50.4), (89, 55.0), (123, 58.4)] : List (ℝ × ℝ)))) ≤
      0.284241 := by
    have h1 : Real.exp
        (-(obsB ([(22, 41.8), (55, 50.4), (89, 55.0), (123, 58.4)] : List (ℝ × ℝ)) /
          obsA ([(22, 41.8), (55, 50.4), (89, 55.0), (123, 58.4)] : List (ℝ × ℝ)))) ≤
        Real.exp (-(1.257935 : ℝ)) :=
      Real.exp_le_exp.mpr (by linarith only [hql])
    have h2 : Real.exp (-(1.257935 : ℝ)) ≤ 0.284241 := by
      rw [Real.exp_neg, ← one_div, div_le_iff (Real.exp_pos _)]
      linarith only [exp_qlo_lb]
    linarith only [h1, h2]
  have hVge : (0.0578 : ℝ) ^ 2 ≤
      (obsB ([(22, 41.8), (55, 50.4), (89, 55.0), (123, 58.4)] : List (ℝ × ℝ)) /
          obsA ([(22, 41.8), (55, 50.4), (89, 55.0), (123, 58.4)] :
            List (ℝ × ℝ)) ^ 2) ^ 2 *
        obsVarA ([(22, 41.8), (55, 50.4), (89, 55.0), (123, 58.4)] : List (ℝ × ℝ)) +
      (1 / obsA ([(22, 41.8), (55, 50.4), (89, 55.0), (123, 58.4)] :
          List (ℝ × ℝ))) ^ 2 *
        obsVarB ([(22, 41.8), (55, 50.4), (89, 55.0), (123, 58.4)] : List (ℝ × ℝ)) -
      2 * (obsB ([(22, 41.8), (55, 50.4), (89, 55.0), (123, 58.4)] : List (ℝ × ℝ)) /
          obsA ([(22, 41.8), (55, 50.4), (89, 55.0), (123, 58.4)] :
            List (ℝ × ℝ)) ^ 2) *
        (1 / obsA ([(22, 41.8), (55, 50.4), (89, 55.0), (123, 58.4)] :
          List (ℝ × ℝ))) *
        obsCovAB ([(22, 41.8), (55, 50.4), (89, 55.0), (123, 58.4)] :
          List (ℝ × ℝ)) := by
    have ht1 : 0 ≤
        (obsB ([(22, 41.8), (55, 50.4), (89, 55.0), (123, 58.4)] : List (ℝ × ℝ)) /
            obsA ([(22, 41.8), (55, 50.4), (89, 55.0), (123, 58.4)] :
              List (ℝ × ℝ)) ^ 2) ^ 2 *
          obsVarA ([(22, 41.8), (55, 50.4), (89, 55.0), (123, 58.4)] :
            List (ℝ × ℝ)) :=
      mul_nonneg (sq_nonneg _) (by linarith only [hval])
    have hp : 0 ≤
        obsB ([(22, 41.8), (55, 50.4), (89, 55.0), (123, 58.4)] : List (ℝ × ℝ)) /
          obsA ([(22, 41.8), (55, 50.4), (89, 55.0), (123, 58.4)] :
            List (ℝ × ℝ)) ^ 2 :=
      div_nonneg (by linarith only [hbl]) (sq_nonneg _)
    have hr' : 0 ≤ 1 /
        obsA ([(22, 41.8), (55, 50.4), (89, 55.0), (123, 58.4)] : List (ℝ × ℝ)) :=
      one_div_nonneg.mpr hapos.le
    have h2pr : 0 ≤ 2 *
        (obsB ([(22, 41.8), (55, 50.4), (89, 55.0), (123, 58.4)] : List (ℝ × ℝ)) /
          obsA ([(22, 41.8), (55, 50.4), (89, 55.0), (123, 58.4)] :
            List (ℝ × ℝ)) ^ 2) *
        (1 / obsA ([(22, 41.8), (55, 50.4), (89, 55.0), (123, 58.4)] :
          List (ℝ × ℝ))) :=
      mul_nonneg (mul_nonneg (by norm_num) hp) hr'
    have ht3 : 2 *
        (obsB ([(22, 41.8), (55, 50.4), (89, 55.0), (123, 58.4)] : List (ℝ × ℝ)) /
          obsA ([(22, 41.8), (55, 50.4), (89, 55.0), (123, 58.4)] :
            List (ℝ × ℝ)) ^ 2) *
        (1 / obsA ([(22, 41.8), (55, 50.4), (89, 55.0), (123, 58.4)] :
          List (ℝ × ℝ))) *
        obsCovAB ([(22, 41.8), (55, 50.4), (89, 55.0), (123, 58.4)] :
          List (ℝ × ℝ)) ≤ 0 := by
      nlinarith only [mul_nonneg h2pr (neg_nonneg.mpr hcv0)]
    have hinv : (1 / 9.593605 : ℝ) ≤ 1 /
        obsA ([(22, 41.8), (55, 50.4), (89, 55.0), (123, 58.4)] : List (ℝ × ℝ)) :=
      one_div_le_one_div_of_le hapos hau
    have hinvsq : (1 / 9.593605 : ℝ) ^ 2 ≤
        (1 / obsA ([(22, 41.8), (55, 50.4), (89, 55.0), (123, 58.4)] :
          List (ℝ × ℝ))) ^ 2 :=
      pow_le_pow_left₀ (by norm_num) hinv 2
    have ht2 : (0.0578 : ℝ) ^ 2 ≤
        (1 / obsA ([(22, 41.8), (55, 50.4), (89, 55.0), (123, 58.4)] :
          List (ℝ × ℝ))) ^ 2 *
          obsVarB ([(22, 41.8), (55, 50.4), (89, 55.0), (123, 58.4)] :
            List (ℝ × ℝ)) :=
      calc (0.0578 : ℝ) ^ 2 ≤ (1 / 9.593605 : ℝ) ^ 2 * 0.310229 := by norm_num
        _ ≤ _ := mul_le_mul hinvsq hvbl (by norm_num) (sq_nonneg _)
    linarith only [ht1, ht3, ht2]
  have hsqV : (0.0578 : ℝ) ≤ Real.sqrt
      ((obsB ([(22, 41.8), (55, 50.4), (89, 55.0), (123, 58.4)] : List (ℝ × ℝ)) /
          obsA ([(22, 41.8), (55, 50.4), (89, 55.0), (123, 58.4)] :
            List (ℝ × ℝ)) ^ 2) ^ 2 *
        obsVarA ([(22, 41.8), (55, 50.4), (89, 55.0), (123, 58.4)] : List (ℝ × ℝ)) +
      (1 / obsA ([(22, 41.8), (55, 50.4), (89, 55.0), (123, 58.4)] :
          List (ℝ × ℝ))) ^ 2 *
        obsVarB ([(22, 41.8), (55, 50.4), (89, 55.0), (123, 58.4)] : List (ℝ × ℝ)) -
      2 * (obsB ([(22, 41.8), (55, 50.4), (89, 55.0), (123, 58.4)] : List (ℝ × ℝ)) /
          obsA ([(22, 41.8), (55, 50.4), (89, 55.0), (123, 58.4)] :
            List (ℝ × ℝ)) ^ 2) *
        (1 / obsA ([(22, 41.8), (55, 50.4), (89, 55.0), (123, 58.4)] :
          List (ℝ × ℝ))) *
        obsCovAB ([(22, 41.8), (55, 50.4), (89, 55.0), (123, 58.4)] :
          List (ℝ × ℝ))) := by
    rw [Real.le_sqrt' (by norm_num)]
    exact hVge
  have hfit : fit ([(22, 41.8), (55, 50.4), (89, 55.0), (123, 58.4)] :
      List (ℝ × ℝ)) (3.98, 0.30) = Except.ok
      { u_star := kappa *
          obsA ([(22, 41.8), (55, 50.4), (89, 55.0), (123, 58.4)] : List (ℝ × ℝ))
        z_o := Real.exp
          (-(obsB ([(22, 41.8), (55, 50.4), (89, 55.0), (123, 58.4)] :
              List (ℝ × ℝ)) /
            obsA ([(22, 41.8), (55, 50.4), (89, 55.0), (123, 58.4)] :
              List (ℝ × ℝ))))
        se_u_star := kappa * Real.sqrt
          (obsVarA ([(22, 41.8), (55, 50.4), (89, 55.0), (123, 58.4)] :
            List (ℝ × ℝ)))
        se_z_o := Real.exp
          (-(obsB ([(22, 41.8), (55, 50.4), (89, 55.0), (123, 58.4)] :
              List (ℝ × ℝ)) /
            obsA ([(22, 41.8), (55, 50.4), (89, 55.0), (123, 58.4)] :
              List (ℝ × ℝ)))) * Real.sqrt
          ((obsB ([(22, 41.8), (55, 50.4), (89, 55.0), (123, 58.4)] :
                List (ℝ × ℝ)) /
              obsA ([(22, 41.8), (55, 50.4), (89, 55.0), (123, 58.4)] :
                List (ℝ × ℝ)) ^ 2) ^ 2 *
            obsVarA ([(22, 41.8), (55, 50.4), (89, 55.0), (123, 58.4)] :
              List (ℝ × ℝ)) +
          (1 / obsA ([(22, 41.8), (55, 50.4), (89, 55.0), (123, 58.4)] :
              List (ℝ × ℝ))) ^ 2 *
            obsVarB ([(22, 41.8), (55, 50.4), (89, 55.0), (123, 58.4)] :
              List (ℝ × ℝ)) -
          2 * (obsB ([(22, 41.8), (55, 50.4), (89, 55.0), (123, 58.4)] :
                List (ℝ × ℝ)) /
              obsA ([(22, 41.8), (55, 50.4), (89, 55.0), (123, 58.4)] :
                List (ℝ × ℝ)) ^ 2) *
            (1 / obsA ([(22, 41.8), (55, 50.4), (89, 55.0), (123, 58.4)] :
              List (ℝ × ℝ))) *
            obsCovAB ([(22, 41.8), (55, 50.4), (89, 55.0), (123, 58.4)] :
              List (ℝ × ℝ)))
        n_observations := ([(22, 41.8), (55, 50.4), (89, 55.0), (123, 58.4)] :
          List (ℝ × ℝ)).length } := by
    unfold fit
    rw [if_neg hguard, if_neg hd0, if_neg ha0]
  refine ⟨_, hfit, ?_, ?_⟩
  · show |kappa *
        obsA ([(22, 41.8), (55, 50.4), (89, 55.0), (123, 58.4)] : List (ℝ × ℝ)) -
        3.98| ≤ 3 * (kappa * Real.sqrt
        (obsVarA ([(22, 41.8), (55, 50.4), (89, 55.0), (123, 58.4)] :
          List (ℝ × ℝ))))
    rw [abs_le]
    simp only [kappa]
    constructor
    · linarith only [hal, hsqA]
    · linarith only [hau, hsqA]
  · show |Real.exp
        (-(obsB ([(22, 41.8), (55, 50.4), (89, 55.0), (123, 58.4)] : List (ℝ × ℝ)) /
          obsA ([(22, 41.8), (55, 50.4), (89, 55.0), (123, 58.4)] :
            List (ℝ × ℝ)))) - 0.30| ≤ 3 * (Real.exp
        (-(obsB ([(22, 41.8), (55, 50.4), (89, 55.0), (123, 58.4)] : List (ℝ × ℝ)) /
          obsA ([(22, 41.8), (55, 50.4), (89, 55.0), (123, 58.4)] :
            List (ℝ × ℝ)))) * Real.sqrt
        ((obsB ([(22, 41.8), (55, 50.4), (89, 55.0), (123, 58.4)] : List (ℝ × ℝ)) /
            obsA ([(22, 41.8), (55, 50.4), (89, 55.0), (123, 58.4)] :
              List (ℝ × ℝ)) ^ 2) ^ 2 *
          obsVarA ([(22, 41.8), (55, 50.4), (89, 55.0), (123, 58.4)] :
            List (ℝ × ℝ)) +
        (1 / obsA ([(22, 41.8), (55, 50.4), (89, 55.0), (123, 58.4)] :
            List (ℝ × ℝ))) ^ 2 *
          obsVarB ([(22, 41.8), (55, 50.4), (89, 55.0), (123, 58.4)] :
            List (ℝ × ℝ)) -
        2 * (obsB ([(22, 41.8), (55, 50.4), (89, 55.0), (123, 58.4)] :
              List (ℝ × ℝ)) /
            obsA ([(22, 41.8), (55, 50.4), (89, 55.0), (123, 58.4)] :
              List (ℝ × ℝ)) ^ 2) *
          (1 / obsA ([(22, 41.8), (55, 50.4), (89, 55.0), (123, 58.4)] :
            List (ℝ × ℝ))) *
          obsCovAB ([(22, 41.8), (55, 50.4), (89, 55.0), (123, 58.4)] :
            List (ℝ × ℝ))))
    have hZS : (0.284139 : ℝ) * 0.0578 ≤ Real.exp
        (-(obsB ([(22, 41.8), (55, 50.4), (89, 55.0), (123, 58.4)] : List (ℝ × ℝ)) /
          obsA ([(22, 41.8), (55, 50.4), (89, 55.0), (123, 58.4)] :
            List (ℝ × ℝ)))) * Real.sqrt
        ((obsB ([(22, 41.8), (55, 50.4), (89, 55.0), (123, 58.4)] : List (ℝ × ℝ)) /
            obsA ([(22, 41.8), (55, 50.4), (89, 55.0), (123, 58.4)] :
              List (ℝ × ℝ)) ^ 2) ^ 2 *
          obsVarA ([(22, 41.8), (55, 50.4), (89, 55.0), (123, 58.4)] :
            List (ℝ × ℝ)) +
        (1 / obsA ([(22, 41.8), (55, 50.4), (89, 55.0), (123, 58.4)] :
            List (ℝ × ℝ))) ^ 2 *
          obsVarB ([(22, 41.8), (55, 50.4), (89, 55.0), (123, 58.4)] :
            List (ℝ × ℝ)) -
        2 * (obsB ([(22, 41.8), (55, 50.4), (89, 55.0), (123, 58.4)] :
              List (ℝ × ℝ)) /
            obsA ([(22, 41.8), (55, 50.4), (89, 55.0), (123, 58.4)] :
              List (ℝ × ℝ)) ^ 2) *
          (1 / obsA ([(22, 41.8), (55, 50.4), (89, 55.0), (123, 58.4)] :
            List (ℝ × ℝ))) *
          obsCovAB ([(22, 41.8), (55, 50.4), (89, 55.0), (123, 58.4)] :
            List (ℝ × ℝ))) :=
      mul_le_mul hzl hsqV (by norm_num) (by linarith only [hzl])
    rw [abs_le]
    constructor
    · linarith only [hzl, hZS]
    · linarith only [hzu, hZS]

/-- Claim C9: the fit operation is pure and stateless: an invocation
leaves the observation store unchanged, and a second invocation on the
store left by the first returns the same result as the first. -/
theorem fit_pure (obs : List (ℝ × ℝ)) (guess : ℝ × ℝ) :
    (fitInvoke obs guess).2 = obs ∧
      (fitInvoke (fitInvoke obs guess).2 guess).1 =
        (fitInvoke obs guess).1 := by
  exact ⟨rfl, rfl⟩

end LawOfTheWall
